import Mathlib

/-!
Shallow embedding of `rollup-plugin-size-history` (src/index.ts).

The plugin records the byte sizes of build artifacts keyed by a commit id
in a JSON "history" file and prints a diff against the previously recorded
snapshot.  The embedding below translates the pure core of the source:
the `Size` / `Snapshot` / `History` data model, `getSnapshots`,
`addSize`, `createDiff`, `compareSnapshot`, and the file-system facing
glue (`ensureFile`, `parseFile`, `writeHistory`, the `generateBundle`
hook body) modelled with explicit state passing: the content of the
store file is an `Option String`, and every `writeFileSync` /
`console.warn` call becomes an element of an effect list.

External collaborators (gzip/brotli compression, `git` queries, console
coloring) are out of scope: the measured sizes enter the model as plain
numbers, exactly as they reach `addSize` in the source.

JavaScript mutation and aliasing matter here: `getSnapshots` returns two
*references* (`previous`, `current`) that may alias each other or an
element of `history`, and `addSize` mutates `current` in place before
`compareSnapshot` reads `previous`.  The embedding makes the aliasing
explicit: `current` is either an index into the history array or a
detached snapshot, and `previous` is an optional index into the history
array (in the empty-history branch both point at index 0, reproducing
the source's `return [newSnapshot, newSnapshot]` after a push).
-/

namespace SizeHistory

/-- `Size` from src/index.ts: one artifact's measurement.  The optional
`new` field models the TypeScript `new?: boolean` (absent = `none`).
Numeric fields are `Int`: stored sizes are non-negative, but the same
record type carries signed deltas in `createDiff`. -/
structure Size where
  name : String
  original : Int
  gzip : Int
  brotli : Int
  new : Option Bool
deriving Repr, DecidableEq

/-- `Snapshot` from src/index.ts: all measurements for one revision. -/
structure Snapshot where
  sizes : List Size
  id : String
deriving Repr, DecidableEq

/-- `History` from src/index.ts. -/
abbrev History := List Snapshot

/-- The message of the `throw` in `addSize`. -/
def dupMsg : String :=
  "Snapshot already saved for this file and commit, use options.overwrite to replace it."

/-- The message of the `throw` in `parseFile`. -/
def corruptMsg : String :=
  "Could not parse previous snapshot. If this is unintentional, please remove this file."

/-- The `console.warn` message emitted by `generateBundle` when
`options.write` is false. -/
def writeDisabledMsg : String :=
  "Output was not written to disk, because options.write === false"

/-- `defaultPath` from src/index.ts: `join(process.cwd(), 'size.history.json')`.
The working-directory prefix is environment state outside the model; the
constant keeps the well-known file name. -/
def defaultPath : String := "size.history.json"

/-- `addSize` from src/index.ts, with the in-place mutation of
`snapshot.sizes` turned into state passing.  The first component is the
thrown error message, if any; the second is the snapshot after the call
(unchanged when the function throws, since the source throws before
touching the array). -/
def addSize (snapshot : Snapshot) (size : Size) (overwrite : Bool) :
    Option String × Snapshot :=
  match snapshot.sizes.findIdx? (fun e => e.name == size.name) with
  | some i =>
    if overwrite then
      (none, { snapshot with sizes := snapshot.sizes.set i size })
    else
      (some dupMsg, snapshot)
  | none => (none, { snapshot with sizes := snapshot.sizes ++ [size] })

/-- `createDiff` from src/index.ts: destructures `name` and `new` from the
old values, and sets each remaining numeric field of the result to
`newValues[k] - oldValues[k]`. -/
def createDiff (oldValues newValues : Size) : Size :=
  { name := oldValues.name
    original := newValues.original - oldValues.original
    gzip := newValues.gzip - oldValues.gzip
    brotli := newValues.brotli - oldValues.brotli
    new := oldValues.new }

/-- `compareSnapshot` from src/index.ts.  `snap` is `Option`al because the
source passes `history[history.length - 2]`, which is `undefined` when the
history has a single element; the `snap?.sizes?.find(...) || defaultVal`
chain falls through to the zero baseline both when `snap` is `undefined`
and when `find` returns `undefined` (a found `Size` object is always
truthy). -/
def compareSnapshot (snap : Option Snapshot) (newValues : Size) : Size :=
  let oldValues :=
    match snap with
    | some s =>
      match s.sizes.find? (fun e => e.name == newValues.name) with
      | some v => v
      | none => { name := newValues.name, original := 0, gzip := 0,
                  brotli := 0, new := some true }
    | none => { name := newValues.name, original := 0, gzip := 0,
                brotli := 0, new := some true }
  createDiff oldValues newValues

/-- Where the `current` snapshot reference returned by `getSnapshots`
points: at element `i` of the history array, or at a fresh object that
was never pushed into the array. -/
inductive CurrentLoc where
  | inHist (i : Nat)
  | detached (s : Snapshot)
deriving Repr, DecidableEq

/-- The state visible to one `generateBundle` invocation: the history
array plus the two references produced by `getSnapshots`.  `prev` is an
optional index into `history` (`none` models the `undefined` second-to-last
element). -/
structure PluginState where
  history : History
  current : CurrentLoc
  prev : Option Nat
deriving Repr, DecidableEq

/-- `getSnapshots` from src/index.ts.  Branches, exactly as the source:
empty history pushes the new snapshot and returns it as both previous and
current (modelled as index 0 twice); a last element with the same id is
reused as current with `history[length - 2]` as previous (`undefined`,
i.e. `none`, when the history has one element); otherwise the last element
is previous and a fresh detached snapshot is current.  Note the third
branch does *not* push the fresh snapshot into the history array. -/
def getSnapshots (history : History) (id : String) : PluginState :=
  if history.length = 0 then
    { history := [{ sizes := [], id := id }]
      current := .inHist 0
      prev := some 0 }
  else
    let n := history.length
    let last := history.getD (n - 1) { sizes := [], id := "" }
    if last.id = id then
      { history := history
        current := .inHist (n - 1)
        prev := if n = 1 then none else some (n - 2) }
    else
      { history := history
        current := .detached { sizes := [], id := id }
        prev := some (n - 1) }

/-- Dereference the `current` snapshot reference. -/
def readCurrent (st : PluginState) : Snapshot :=
  match st.current with
  | .inHist i => st.history.getD i { sizes := [], id := "" }
  | .detached s => s

/-- Write through the `current` snapshot reference (the effect of the
in-place mutation `addSize` performs on the object `current` points at). -/
def writeCurrent (st : PluginState) (s : Snapshot) : PluginState :=
  match st.current with
  | .inHist i => { st with history := st.history.set i s }
  | .detached _ => { st with current := .detached s }

/-- Dereference the `previous` snapshot reference, after any mutations:
it reads the history array element at the stored index, so a `previous`
that aliases `current` sees `current`'s mutations, as in the source. -/
def readPrev (st : PluginState) : Option Snapshot :=
  match st.prev with
  | some i => some (st.history.getD i { sizes := [], id := "" })
  | none => none

/-- One observable side effect of the plugin: a `writeFileSync` call (path
and content) or a `console.warn` call. -/
inductive FsEffect where
  | write (path : String) (content : String)
  | warn (msg : String)
deriving Repr, DecidableEq

/-- String escaping in `JSON.stringify` for the string values appearing in
a history (`id`, `name`): quote marks and backslashes are escaped.  Control
character escaping is elided: commit ids and file names contain none. -/
def quoteJson (s : String) : String :=
  "\"" ++ String.join (s.toList.map (fun c =>
    if c = '"' then "\\\"" else if c = '\\' then "\\\\" else String.singleton c)) ++ "\""

/-- `JSON.stringify` on one `Size`.  Keys appear in object insertion
order (`name`, `original`, `gzip`, `brotli`, `new`); an `undefined`
property (`new := none`) is omitted, as `JSON.stringify` does. -/
def stringifySize (z : Size) : String :=
  "\x7b\"name\":" ++ quoteJson z.name ++
  ",\"original\":" ++ toString z.original ++
  ",\"gzip\":" ++ toString z.gzip ++
  ",\"brotli\":" ++ toString z.brotli ++
  (match z.new with
   | some true => ",\"new\":true"
   | some false => ",\"new\":false"
   | none => "") ++ "\x7d"

/-- `JSON.stringify` on one `Snapshot` (keys in declaration order of the
object literal `{ id, sizes }` as built by `getSnapshots`: `id` first). -/
def stringifySnapshot (s : Snapshot) : String :=
  "\x7b\"id\":" ++ quoteJson s.id ++
  ",\"sizes\":[" ++ String.intercalate "," (s.sizes.map stringifySize) ++ "]\x7d"

/-- `JSON.stringify(history)` as called by `writeHistory`. -/
def stringifyHistory (h : History) : String :=
  "[" ++ String.intercalate "," (h.map stringifySnapshot) ++ "]"

/-- The body of the `generateBundle` hook from src/index.ts, for one
artifact, from the point where the three sizes have been measured (the
compression calls are external collaborators; `newSizes` is the
`{ name, original, gzip, brotli }` object the source builds, so its `new`
field is `none`).  Steps, in source order: `addSize` on the current
snapshot (an uncaught throw aborts the hook before any further effect),
`compareSnapshot` against the previous reference, then either
`writeHistory(defaultPath, history)` — note: `defaultPath`, not the
configured path — or the disabled-write warning.  Returns the state after
the mutation, the diff handed to `printResult`, and the effects. -/
def generateBundle (st : PluginState) (overwrite write : Bool)
    (newSizes : Size) : Except String (PluginState × Size × List FsEffect) :=
  match addSize (readCurrent st) newSizes overwrite with
  | (some msg, _) => .error msg
  | (none, cur) =>
    let st1 := writeCurrent st cur
    let diff := compareSnapshot (readPrev st1) newSizes
    let effs := if write then [FsEffect.write defaultPath (stringifyHistory st1.history)]
                else [FsEffect.warn writeDisabledMsg]
    .ok (st1, diff, effs)

/-!
### The store file: `ensureFile`, `JSON.parse`, `parseFile`

`parseFile` is `JSON.parse` inside a `try` whose `catch` throws the
corrupt-store message; the result is cast to `History` *unchecked*.  So
the model of the load path needs a model of `JSON.parse` itself: a
generic JSON value type and a parser.  The parser is deliberately on the
permissive side of real `JSON.parse` where the two could differ (string
contents, number syntax): every claim about the failure branch only
assumes an input this parser rejects.
-/

/-- A JSON value, as produced by `JSON.parse`.  Numbers keep their source
lexeme: no claim depends on numeric value semantics of parsed content,
and this avoids committing to floating point. -/
inductive Json where
  | null
  | bool (b : Bool)
  | num (lexeme : String)
  | str (s : String)
  | arr (elems : List Json)
  | obj (fields : List (String × Json))
deriving Repr

/-- JSON whitespace. -/
def isJsonWs (c : Char) : Bool :=
  c = ' ' || c = '\t' || c = '\n' || c = '\r'

/-- Drop leading JSON whitespace. -/
def skipWs (cs : List Char) : List Char :=
  cs.dropWhile isJsonWs

/-- Parse the remainder of a JSON string literal (after the opening
quote), handling backslash escapes; returns the decoded characters and
the input after the closing quote. -/
def parseStringRest (fuel : Nat) (cs : List Char) : Option (List Char × List Char) :=
  match fuel, cs with
  | 0, _ => none
  | _, [] => none
  | fuel + 1, c :: rest =>
    if c = '"' then some ([], rest)
    else if c = '\\' then
      match rest with
      | [] => none
      | e :: rest2 =>
        let decoded : Option (List Char × List Char) :=
          if e = 'u' then
            match rest2 with
            | h1 :: h2 :: h3 :: h4 :: rest3 =>
              if h1.isDigit || h1.isAlpha then
                some ([Char.ofNat ((h1.toNat * 4096 + h2.toNat * 256 +
                  h3.toNat * 16 + h4.toNat) % 1114112)], rest3)
              else none
            | _ => none
          else if e = 'n' then some (['\n'], rest2)
          else if e = 't' then some (['\t'], rest2)
          else if e = 'r' then some (['\r'], rest2)
          else some ([e], rest2)
        match decoded with
        | none => none
        | some (dc, rest3) =>
          match parseStringRest fuel rest3 with
          | some (tail, rest4) => some (dc ++ tail, rest4)
          | none => none
    else
      match parseStringRest fuel rest with
      | some (tail, rest2) => some (c :: tail, rest2)
      | none => none

/-- Parse a JSON number lexeme: optional minus, digits, optional
fraction, optional exponent.  Returns the lexeme characters and the rest. -/
def parseNumber (cs : List Char) : Option (List Char × List Char) :=
  let (neg, cs1) :=
    match cs with
    | '-' :: rest => (['-'], rest)
    | _ => (([] : List Char), cs)
  let intPart := cs1.takeWhile Char.isDigit
  let cs2 := cs1.dropWhile Char.isDigit
  if intPart.isEmpty then none
  else
    let (frac, cs3) :=
      match cs2 with
      | '.' :: rest =>
        let ds := rest.takeWhile Char.isDigit
        if ds.isEmpty then (([] : List Char), cs2)
        else ('.' :: ds, rest.dropWhile Char.isDigit)
      | _ => (([] : List Char), cs2)
    let (expPart, cs4) :=
      match cs3 with
      | e :: rest =>
        if e = 'e' || e = 'E' then
          let (sgn, rest2) :=
            match rest with
            | s :: r2 => if s = '+' || s = '-' then ([s], r2) else (([] : List Char), rest)
            | [] => (([] : List Char), rest)
          let ds := rest2.takeWhile Char.isDigit
          if ds.isEmpty then (([] : List Char), cs3)
          else (e :: (sgn ++ ds), rest2.dropWhile Char.isDigit)
        else (([] : List Char), cs3)
      | [] => (([] : List Char), cs3)
    some (neg ++ intPart ++ frac ++ expPart, cs4)

mutual

/-- Recursive-descent model of `JSON.parse`: one value. -/
def parseValue (fuel : Nat) (cs : List Char) : Option (Json × List Char) :=
  match fuel with
  | 0 => none
  | fuel + 1 =>
    match cs with
    | [] => none
    | c :: rest =>
      if c = 'n' then
        match rest with
        | 'u' :: 'l' :: 'l' :: rest2 => some (.null, rest2)
        | _ => none
      else if c = 't' then
        match rest with
        | 'r' :: 'u' :: 'e' :: rest2 => some (.bool true, rest2)
        | _ => none
      else if c = 'f' then
        match rest with
        | 'a' :: 'l' :: 's' :: 'e' :: rest2 => some (.bool false, rest2)
        | _ => none
      else if c = '"' then
        match parseStringRest fuel rest with
        | some (chars, rest2) => some (.str (String.mk chars), rest2)
        | none => none
      else if c = '[' then
        parseArrayBody fuel (skipWs rest)
      else if c = '\x7b' then
        parseObjectBody fuel (skipWs rest)
      else if c = '-' || c.isDigit then
        match parseNumber cs with
        | some (lex, rest2) => some (.num (String.mk lex), rest2)
        | none => none
      else none

/-- After `[` and whitespace: element list or immediate `]`. -/
def parseArrayBody (fuel : Nat) (cs : List Char) : Option (Json × List Char) :=
  match fuel with
  | 0 => none
  | fuel + 1 =>
    match cs with
    | ']' :: rest => some (.arr [], rest)
    | _ =>
      match parseValue fuel cs with
      | none => none
      | some (v, rest) => parseArrayTail fuel [v] (skipWs rest)

/-- After a parsed element and whitespace: `,` and another element, or `]`. -/
def parseArrayTail (fuel : Nat) (acc : List Json) (cs : List Char) :
    Option (Json × List Char) :=
  match fuel with
  | 0 => none
  | fuel + 1 =>
    match cs with
    | ']' :: rest => some (.arr acc.reverse, rest)
    | ',' :: rest =>
      match parseValue fuel (skipWs rest) with
      | none => none
      | some (v, rest2) => parseArrayTail fuel (v :: acc) (skipWs rest2)
    | _ => none

/-- After `{` and whitespace: member list or immediate `}`. -/
def parseObjectBody (fuel : Nat) (cs : List Char) : Option (Json × List Char) :=
  match fuel with
  | 0 => none
  | fuel + 1 =>
    match cs with
    | '\x7d' :: rest => some (.obj [], rest)
    | _ =>
      match parseMember fuel cs with
      | none => none
      | some (kv, rest) => parseObjectTail fuel [kv] (skipWs rest)

/-- One `"key": value` member. -/
def parseMember (fuel : Nat) (cs : List Char) : Option ((String × Json) × List Char) :=
  match fuel with
  | 0 => none
  | fuel + 1 =>
    match cs with
    | '"' :: rest =>
      match parseStringRest fuel rest with
      | none => none
      | some (kchars, rest2) =>
        match skipWs rest2 with
        | ':' :: rest3 =>
          match parseValue fuel (skipWs rest3) with
          | none => none
          | some (v, rest4) => some ((String.mk kchars, v), rest4)
        | _ => none
    | _ => none

/-- After a parsed member and whitespace: `,` and another member, or `}`. -/
def parseObjectTail (fuel : Nat) (acc : List (String × Json)) (cs : List Char) :
    Option (Json × List Char) :=
  match fuel with
  | 0 => none
  | fuel + 1 =>
    match cs with
    | '\x7d' :: rest => some (.obj acc.reverse, rest)
    | ',' :: rest =>
      match parseMember fuel (skipWs rest) with
      | none => none
      | some (kv, rest2) => parseObjectTail fuel (kv :: acc) (skipWs rest2)
    | _ => none

end

/-- Model of `JSON.parse`: parse one value surrounded by whitespace,
requiring the whole input to be consumed. -/
def jsonParse (s : String) : Option Json :=
  match parseValue (s.length + 1) (skipWs s.toList) with
  | some (v, rest) => if skipWs rest = [] then some v else none
  | none => none

/-- Field lookup in a parsed JSON object. -/
def jlookup (fields : List (String × Json)) (k : String) : Option Json :=
  (fields.find? (fun p => p.1 == k)).map Prod.snd

/-- Spec-side decoder for one serialized `Size`, following the spec's
persisted file format: `{ name, original, gzip, brotli, new? }` with
string name, integer sizes, optional boolean `new`.  Part of the
definition of "a valid serialized History" — the source performs an
*unchecked cast* after `JSON.parse` and has no counterpart of this
function; it exists to compare that cast against the spec's words. -/
def decodeSize (j : Json) : Option Size :=
  match j with
  | .obj fields =>
    match jlookup fields "name", jlookup fields "original",
          jlookup fields "gzip", jlookup fields "brotli" with
    | some (.str name), some (.num o), some (.num g), some (.num b) =>
      match o.toInt?, g.toInt?, b.toInt? with
      | some oi, some gi, some bi =>
        match jlookup fields "new" with
        | none => some { name := name, original := oi, gzip := gi,
                         brotli := bi, new := none }
        | some (.bool flag) => some { name := name, original := oi, gzip := gi,
                                      brotli := bi, new := some flag }
        | some _ => none
      | _, _, _ => none
    | _, _, _, _ => none
  | _ => none

/-- Spec-side decoder for one serialized `Snapshot`:
`{ id: string, sizes: Size[] }`. -/
def decodeSnapshot (j : Json) : Option Snapshot :=
  match j with
  | .obj fields =>
    match jlookup fields "id", jlookup fields "sizes" with
    | some (.str id), some (.arr sizes) =>
      match sizes.mapM decodeSize with
      | some zs => some { sizes := zs, id := id }
      | none => none
    | _, _ => none
  | _ => none

/-- Spec-side decoder for a serialized `History`: "a serialized array of
Snapshot objects".  `decodeHistory j = some h` is the formal reading of
"the content is a valid serialized History". -/
def decodeHistory (j : Json) : Option History :=
  match j with
  | .arr snaps => snaps.mapM decodeSnapshot
  | _ => none

/-- `ensureFile` from src/index.ts, over the content of the single file at
`path` (`none` = the file does not exist): an existing file is read; a
missing one is written with `defaultValue` and `defaultValue` is
returned.  The write happens unconditionally — no configuration reaches
this function. -/
def ensureFile (path : String) (fsContent : Option String)
    (defaultValue : String) : String × List FsEffect :=
  match fsContent with
  | some c => (c, [])
  | none => (defaultValue, [FsEffect.write path defaultValue])

/-- `parseFile` from src/index.ts: `JSON.parse` in a `try`, whose `catch`
throws the corrupt-store message.  The parsed value is returned as raw
JSON because the source's `return JSON.parse(file)` is an unchecked cast
to `History`: no shape validation happens. -/
def parseFile (file : String) : Except String Json :=
  match jsonParse file with
  | some j => .ok j
  | none => .error corruptMsg

/-- The load phase of `sizeHistory` (src/index.ts lines 192-193):
`const file = ensureFile(path, '[]'); const history = parseFile(file)`,
with the write effect of `ensureFile` recorded. -/
def loadStore (path : String) (fsContent : Option String) :
    Except String Json × List FsEffect :=
  let (file, effs) := ensureFile path fsContent "[]"
  (parseFile file, effs)

/-!
### Claims
-/

/-- Claim C1, at its failing input: with history `[{id: "old", sizes: []}]`
and revision id `"new"`, `getSnapshots` returns the old tail as previous
and a fresh empty snapshot with id `"new"` as current, but does *not*
append that snapshot to the history — the history still has length 1 and
contains no snapshot with id `"new"`; consequently the content written by
a subsequent `generateBundle` with `write = true` serializes only the old
history, without the new revision or its measurement. -/
theorem c1_getSnapshots_does_not_append_new_revision :
    getSnapshots [{ sizes := [], id := "old" }] "new" =
      { history := [{ sizes := [], id := "old" }]
        current := .detached { sizes := [], id := "new" }
        prev := some 0 } ∧
    (getSnapshots [{ sizes := [], id := "old" }] "new").history.length = 1 ∧
    (∀ s ∈ (getSnapshots [{ sizes := [], id := "old" }] "new").history,
      s.id ≠ "new") ∧
    generateBundle (getSnapshots [{ sizes := [], id := "old" }] "new")
        false true
        { name := "a.js", original := 10, gzip := 5, brotli := 4, new := none } =
      .ok ({ history := [{ sizes := [], id := "old" }]
             current := .detached
               { sizes := [{ name := "a.js", original := 10, gzip := 5,
                             brotli := 4, new := none }], id := "new" }
             prev := some 0 },
           { name := "a.js", original := 10, gzip := 5, brotli := 4,
             new := some true },
           [FsEffect.write defaultPath "[\x7b\"id\":\"old\",\"sizes\":[]\x7d]"]) := by
  exact ⟨rfl, rfl, by decide, rfl⟩

/-- Counterexample for C2 as stated: in the empty-store scenario
(revision `"abc123"`, artifact `bundle.js` at 1000/400/350) the diff the
plugin computes and reports is all-zero with the `new` flag absent, not
`new = true` with raw-value deltas: `getSnapshots` returns the freshly
pushed snapshot as both previous and current, and `addSize` records the
measurement before `compareSnapshot` reads the aliased previous
snapshot, so the baseline lookup finds the just-recorded entry. -/
theorem c2_counterexample :
    generateBundle (getSnapshots [] "abc123") false false
        { name := "bundle.js", original := 1000, gzip := 400, brotli := 350,
          new := none } =
      .ok ({ history := [{ sizes := [{ name := "bundle.js", original := 1000,
                                       gzip := 400, brotli := 350,
                                       new := none }], id := "abc123" }]
             current := .inHist 0
             prev := some 0 },
           { name := "bundle.js", original := 0, gzip := 0, brotli := 0,
             new := none },
           [FsEffect.warn writeDisabledMsg]) ∧
    ({ name := "bundle.js", original := 0, gzip := 0, brotli := 0,
       new := none } : Size).new ≠ some true ∧
    ({ name := "bundle.js", original := 0, gzip := 0, brotli := 0,
       new := none } : Size).original ≠ 1000 := by
  exact ⟨rfl, by decide, by decide⟩

/-- Claim C2 as amended: from an absent (hence empty) store and revision
`"abc123"`, recording `bundle.js` at 1000/400/350 produces exactly the
claimed one-snapshot history, with the stored entry carrying no `new`
flag; the diff computed and reported, however, has every delta zero and
its `new` flag absent, because previous and current are the same
snapshot and the measurement is recorded before the diff is taken. -/
theorem c2_amended_empty_store_scenario :
    loadStore "size.history.json" none =
      (.ok (Json.arr []), [FsEffect.write "size.history.json" "[]"]) ∧
    decodeHistory (Json.arr []) = some [] ∧
    generateBundle (getSnapshots [] "abc123") false false
        { name := "bundle.js", original := 1000, gzip := 400, brotli := 350,
          new := none } =
      .ok ({ history := [{ sizes := [{ name := "bundle.js", original := 1000,
                                       gzip := 400, brotli := 350,
                                       new := none }], id := "abc123" }]
             current := .inHist 0
             prev := some 0 },
           { name := "bundle.js", original := 0, gzip := 0, brotli := 0,
             new := none },
           [FsEffect.warn writeDisabledMsg]) := by
  exact ⟨rfl, rfl, rfl⟩

/-- Claim C3, at its failing input: a run configured with
`path = "custom-path.json"` reads the store from that path, but the
write performed by `generateBundle` targets `defaultPath`
(`writeHistory(defaultPath, history)` in the source), not the configured
path — the configured path never reaches the write. -/
theorem c3_write_goes_to_default_path_not_configured_path :
    loadStore "custom-path.json" (some "[]") = (.ok (Json.arr []), []) ∧
    generateBundle (getSnapshots [] "abc123") false true
        { name := "a.js", original := 10, gzip := 5, brotli := 4,
          new := none } =
      .ok ({ history := [{ sizes := [{ name := "a.js", original := 10,
                                       gzip := 5, brotli := 4,
                                       new := none }], id := "abc123" }]
             current := .inHist 0
             prev := some 0 },
           { name := "a.js", original := 0, gzip := 0, brotli := 0,
             new := none },
           [FsEffect.write defaultPath
             "[\x7b\"id\":\"abc123\",\"sizes\":[\x7b\"name\":\"a.js\",\"original\":10,\"gzip\":5,\"brotli\":4\x7d]\x7d]"]) ∧
    defaultPath ≠ "custom-path.json" := by
  exact ⟨rfl, rfl, by decide⟩

/-- Counterexample for C4 as stated: even in a run with `write = false`,
the load phase mutates the disk when the store file is absent —
`ensureFile` unconditionally creates it with the empty-history content
(no configuration reaches `ensureFile`), so "no disk mutation at all,
neither during load nor after measuring" is false. -/
theorem c4_counterexample :
    (loadStore "custom.json" none).2 = [FsEffect.write "custom.json" "[]"] ∧
    (loadStore "custom.json" none).2 ≠ [] := by
  exact ⟨rfl, by decide⟩

/-- Claim C4 as amended: with `write = false` the measuring phase itself
performs no disk write — the `generateBundle` hook succeeds and its only
effect is the disabled-write console warning — and a load over an
existing store file performs no write either; but a load over an absent
store file still creates it with the empty-history content. -/
theorem c4_amended_write_disabled_warns_only :
    (∀ (st : PluginState) (z : Size) (overwrite : Bool) (cur : Snapshot),
      addSize (readCurrent st) z overwrite = (none, cur) →
      generateBundle st overwrite false z =
        .ok (writeCurrent st cur,
             compareSnapshot (readPrev (writeCurrent st cur)) z,
             [FsEffect.warn writeDisabledMsg])) ∧
    (∀ path c : String, ensureFile path (some c) "[]" = (c, [])) ∧
    (∀ path : String,
      ensureFile path none "[]" = ("[]", [FsEffect.write path "[]"])) := by
  refine ⟨fun st z overwrite cur h => ?_, fun path c => rfl, fun path => rfl⟩
  simp [generateBundle, h]

/-- Witness for the amended C4: one concrete `write = false` hook run
emits only the warning. -/
theorem c4_amended_write_disabled_warns_only_witness :
    generateBundle (getSnapshots [] "r1") false false
        { name := "a.js", original := 10, gzip := 5, brotli := 4,
          new := none } =
      .ok ({ history := [{ sizes := [{ name := "a.js", original := 10,
                                       gzip := 5, brotli := 4,
                                       new := none }], id := "r1" }]
             current := .inHist 0
             prev := some 0 },
           { name := "a.js", original := 0, gzip := 0, brotli := 0,
             new := none },
           [FsEffect.warn writeDisabledMsg]) :=
  c4_amended_write_disabled_warns_only.1 (getSnapshots [] "r1")
    { name := "a.js", original := 10, gzip := 5, brotli := 4, new := none }
    false
    { sizes := [{ name := "a.js", original := 10, gzip := 5, brotli := 4,
                  new := none }], id := "r1" }
    rfl

/-- Claim C5: recording a size whose name is already present in the
snapshot, with `overwrite = false`, fails with the duplicate-measurement
error and leaves the sizes list exactly as it was: `addSize` returns the
thrown message together with the untouched snapshot. -/
theorem c5_addSize_duplicate_error (s : Snapshot) (z : Size)
    (h : ∃ e ∈ s.sizes, e.name = z.name) :
    addSize s z false = (some dupMsg, s) := by
  cases hf : s.sizes.findIdx? (fun e => e.name == z.name) with
  | none =>
    rw [List.findIdx?_eq_none_iff] at hf
    obtain ⟨e, he, hn⟩ := h
    have := hf e he
    simp [hn] at this
  | some i => simp [addSize, hf]

/-- Witness for C5: a snapshot already holding an entry named `a.js`
rejects a second measurement of `a.js` and is returned unchanged. -/
theorem c5_addSize_duplicate_error_witness :
    addSize { sizes := [{ name := "a.js", original := 1, gzip := 2,
                          brotli := 3, new := none }], id := "r1" }
        { name := "a.js", original := 9, gzip := 8, brotli := 7, new := none }
        false =
      (some dupMsg,
       { sizes := [{ name := "a.js", original := 1, gzip := 2,
                     brotli := 3, new := none }], id := "r1" }) :=
  c5_addSize_duplicate_error _ _ (by decide)

/-- Claim C6: with `overwrite = true`, a size whose name is already
present replaces the existing entry at its positional index — same list
length, entry `i` becomes the new size, every other index unchanged —
and a size whose name is absent is appended at the end. -/
theorem c6_addSize_overwrite_replaces_in_place (s : Snapshot) (z : Size) :
    (∀ i, s.sizes.findIdx? (fun e => e.name == z.name) = some i →
      addSize s z true = (none, { s with sizes := s.sizes.set i z }) ∧
      (s.sizes.set i z).length = s.sizes.length ∧
      (s.sizes.set i z)[i]? = some z ∧
      ∀ j, j ≠ i → (s.sizes.set i z)[j]? = s.sizes[j]?) ∧
    (s.sizes.findIdx? (fun e => e.name == z.name) = none →
      addSize s z true = (none, { s with sizes := s.sizes ++ [z] })) := by
  constructor
  · intro i hi
    have hlt : i < s.sizes.length :=
      (List.findIdx?_eq_some_iff_findIdx_eq.mp hi).1
    refine ⟨by simp [addSize, hi], List.length_set .., ?_, ?_⟩
    · simp [List.getElem?_set, hlt]
    · intro j hj
      exact List.getElem?_set_ne (fun he => hj he.symm)
  · intro hn
    simp [addSize, hn]

/-- Witness for C6: replacing the sole entry of a one-element snapshot
keeps the length and position; inserting under a fresh name appends. -/
theorem c6_addSize_overwrite_replaces_in_place_witness :
    addSize { sizes := [{ name := "a.js", original := 1, gzip := 2,
                          brotli := 3, new := none }], id := "r1" }
        { name := "a.js", original := 9, gzip := 8, brotli := 7, new := none }
        true =
      (none,
       { sizes := [{ name := "a.js", original := 9, gzip := 8,
                     brotli := 7, new := none }], id := "r1" }) ∧
    addSize { sizes := [], id := "r1" }
        { name := "b.js", original := 4, gzip := 3, brotli := 2, new := none }
        true =
      (none,
       { sizes := [{ name := "b.js", original := 4, gzip := 3,
                     brotli := 2, new := none }], id := "r1" }) :=
  ⟨((c6_addSize_overwrite_replaces_in_place
      { sizes := [{ name := "a.js", original := 1, gzip := 2,
                    brotli := 3, new := none }], id := "r1" }
      { name := "a.js", original := 9, gzip := 8, brotli := 7,
        new := none }).1 0 rfl).1,
   (c6_addSize_overwrite_replaces_in_place
      { sizes := [], id := "r1" }
      { name := "b.js", original := 4, gzip := 3, brotli := 2,
        new := none }).2 rfl⟩

/-- Claim C7: diffing a current size against the degenerate absent
previous snapshot yields a result flagged `new = true` whose three delta
fields equal the current values themselves (zero baseline), carrying the
name forward. -/
theorem c7_compareSnapshot_no_previous_is_new (z : Size) :
    compareSnapshot none z =
      { name := z.name, original := z.original, gzip := z.gzip,
        brotli := z.brotli, new := some true } := by
  simp [compareSnapshot, createDiff]

/-- Counterexample for C8 as stated: a previous snapshot whose stored
entry itself carries `new = true` produces a diff flagged new even though
the baseline was found (not the zero-default), so "found baseline implies
not flagged new" fails. -/
theorem c8_counterexample :
    (({ sizes := [{ name := "a.js", original := 10, gzip := 5, brotli := 4,
                    new := some true }], id := "r1" } : Snapshot).sizes.find?
        (fun x => x.name == "a.js") =
      some { name := "a.js", original := 10, gzip := 5, brotli := 4,
             new := some true }) ∧
    (compareSnapshot
        (some { sizes := [{ name := "a.js", original := 10, gzip := 5,
                            brotli := 4, new := some true }], id := "r1" })
        { name := "a.js", original := 20, gzip := 6, brotli := 5,
          new := none }).new = some true := by
  exact ⟨by decide, by decide⟩

/-- Claim C8 as amended: the `new` flag on the diff equals the stored
`new` flag of the found baseline entry whenever one with the current name
exists in the previous snapshot (so it is unset for every entry the
plugin itself records, which never carries the flag), and it is `true`
exactly when the baseline fell through to the zero-default. -/
theorem c8_amended_new_flag_follows_baseline (snap : Snapshot) (z : Size) :
    (∀ e, snap.sizes.find? (fun x => x.name == z.name) = some e →
      (compareSnapshot (some snap) z).new = e.new) ∧
    (snap.sizes.find? (fun x => x.name == z.name) = none →
      (compareSnapshot (some snap) z).new = some true) := by
  constructor
  · intro e he
    simp [compareSnapshot, createDiff, he]
  · intro hn
    simp [compareSnapshot, createDiff, hn]

/-- Witness for the amended C8: an unflagged stored entry gives an
unflagged diff; a missing entry gives `new = true`. -/
theorem c8_amended_new_flag_follows_baseline_witness :
    (compareSnapshot
        (some { sizes := [{ name := "a.js", original := 10, gzip := 5,
                            brotli := 4, new := none }], id := "r1" })
        { name := "a.js", original := 20, gzip := 6, brotli := 5,
          new := none }).new = none ∧
    (compareSnapshot
        (some { sizes := [], id := "r1" })
        { name := "a.js", original := 20, gzip := 6, brotli := 5,
          new := none }).new = some true :=
  ⟨(c8_amended_new_flag_follows_baseline
      { sizes := [{ name := "a.js", original := 10, gzip := 5,
                    brotli := 4, new := none }], id := "r1" }
      { name := "a.js", original := 20, gzip := 6, brotli := 5,
        new := none }).1
      { name := "a.js", original := 10, gzip := 5, brotli := 4, new := none }
      rfl,
   (c8_amended_new_flag_follows_baseline
      { sizes := [], id := "r1" }
      { name := "a.js", original := 20, gzip := 6, brotli := 5,
        new := none }).2 rfl⟩

/-- Counterexample for C9 as stated: the content of the store file may be
valid JSON without being a valid serialized History — here an empty
object.  `JSON.parse` succeeds, so `parseFile` raises no corrupt-store
error: the load accepts the file even though `decodeHistory` (the
formalisation of "a valid serialized History") rejects it.  The claimed
"fails with CorruptStoreError on any content that is not a valid
serialized History" is therefore false. -/
theorem c9_counterexample :
    jsonParse "\x7b\x7d" = some (Json.obj []) ∧
    decodeHistory (Json.obj []) = none ∧
    loadStore "size.history.json" (some "\x7b\x7d") =
      (.ok (Json.obj []), []) := by
  exact ⟨rfl, rfl, rfl⟩

/-- Claim C9 as amended: loading from an absent file creates it with the
empty-history content `[]` and yields the empty history; loading content
that is not valid JSON (here: anything the `JSON.parse` model rejects)
fails with the corrupt-store message, which directs the user to remove
the file manually.  Content that is valid JSON but not a serialized
History is accepted without error — the source casts the parse result
uncheckedly. -/
theorem c9_amended_load_behaviour (path c : String) :
    (loadStore path none = (.ok (Json.arr []), [FsEffect.write path "[]"]) ∧
      decodeHistory (Json.arr []) = some []) ∧
    (jsonParse c = none →
      loadStore path (some c) = (.error corruptMsg, [])) := by
  refine ⟨⟨rfl, rfl⟩, fun h => ?_⟩
  simp [loadStore, ensureFile, parseFile, h]

/-- Witness for the amended C9: the unparseable content `garbage` makes
the load fail with the corrupt-store message. -/
theorem c9_amended_load_behaviour_witness :
    loadStore "p.json" (some "garbage") = (.error corruptMsg, []) :=
  (c9_amended_load_behaviour "p.json" "garbage").2 rfl

/-- Claim C10: when the store file is absent, the load path first writes
the empty-array content, which always parses, so the corrupt-store error
branch is unreachable and the load returns the empty history. -/
theorem c10_absent_store_never_corrupt (path : String) :
    loadStore path none = (.ok (Json.arr []), [FsEffect.write path "[]"]) ∧
    decodeHistory (Json.arr []) = some [] ∧
    (loadStore path none).1 ≠ .error corruptMsg := by
  exact ⟨rfl, rfl, fun h => Except.noConfusion h⟩

end SizeHistory
